import Mathlib

/-!
Verification of the multilsp protocol-client engine against its
natural-language specification.  The definitions below are shallow
embeddings of the Python source: the request/response correlation state of
`BaseLanguageServerManager` (base.py), the framing reader, the notification
handler, the text-edit application loop of `run_formatter`
(python_server.py / javascript_server.py), and the routing layer of
`MultiLanguageServer` (service.py).
-/

namespace MultiLsp

/-- An inbound JSON-RPC message as inspected by `_process_lsp_message`:
each field is `none` when the corresponding JSON key is absent.  Result and
error payloads are opaque strings (the dispatcher never looks inside them). -/
structure InMsg where
  msgId : Option String
  result : Option String
  error : Option String
  method : Option String
  deriving DecidableEq

/-- Correlation bookkeeping of `BaseLanguageServerManager`: the async
callback table `request_callbacks` (callbacks abstracted by numeric tags,
in Python dict insertion order), the `next_request_id` counter, and the
single shared synchronous `response_queue`. -/
structure CorrState where
  request_callbacks : List (String × Nat)
  next_request_id : Nat
  response_queue : List InMsg
  deriving DecidableEq

/-- Events visible outside `_process_lsp_message`: an async callback
invocation or a notification dispatch. -/
inductive Dispatched where
  | callbackInvoked (tag : Nat) (m : InMsg)
  | notification (m : InMsg)
  deriving DecidableEq

/-- Python `dict.pop` on the callback table: the callback registered for the
given id (if any) together with the table without that entry. -/
def popCallback : List (String × Nat) → String → Option Nat × List (String × Nat)
  | [], _ => (none, [])
  | (k, v) :: rest, rid =>
    if k = rid then (some v, rest)
    else
      let (r, l) := popCallback rest rid
      (r, (k, v) :: l)

/-- `BaseLanguageServerManager._process_lsp_message`: a message with both an
`id` and a `result` key either completes a registered async callback (when
its id is in `request_callbacks`) or is pushed onto the shared
`response_queue` for synchronous waiters; a message with a `method` and no
`id` is a notification; anything else (notably a response carrying `error`
but no `result`) falls through both branches and is dropped. -/
def processLspMessage (st : CorrState) (m : InMsg) : CorrState × Option Dispatched :=
  if m.msgId.isSome && m.result.isSome then
    let rid := m.msgId.getD ""
    match popCallback st.request_callbacks rid with
    | (some tag, rest) =>
      ({ st with request_callbacks := rest }, some (.callbackInvoked tag m))
    | (none, _) =>
      ({ st with response_queue := st.response_queue ++ [m] }, none)
  else if m.method.isSome && !m.msgId.isSome then
    (st, some (.notification m))
  else
    (st, none)

/-- Id-allocation part of `_send_request_sync`: the request id is
`str(next_request_id)` and the counter is incremented; the request itself
goes to the write queue.  No per-id bookkeeping is created for the waiter. -/
def sendRequestSyncEnqueue (st : CorrState) : String × CorrState :=
  (toString st.next_request_id, { st with next_request_id := st.next_request_id + 1 })

/-- Wait part of `_send_request_sync`: `response_queue.get(timeout=10)`
hands the waiter the oldest message in the shared queue, whatever its id;
`none` models the timeout (the code then returns the empty dict).  Multiple
blocked waiters are served in the order they called `get`. -/
def syncWaitStep (st : CorrState) : Option InMsg × CorrState :=
  match st.response_queue with
  | [] => (none, st)
  | m :: rest => (some m, { st with response_queue := rest })

/-- `_send_request_async`: allocates an id and registers the callback tag in
the table before the request is queued. -/
def sendRequestAsyncEnqueue (st : CorrState) (tag : Nat) : String × CorrState :=
  let rid := toString st.next_request_id
  (rid,
   { st with
      request_callbacks := st.request_callbacks ++ [(rid, tag)],
      next_request_id := st.next_request_id + 1 })

/-- A successful response message: an `id` and a `result` payload. -/
def respMsg (rid : String) (payload : String) : InMsg :=
  ⟨some rid, some payload, none, none⟩

/-- Fresh manager state: empty callback table, counter at 1, empty queue. -/
def initialCorrState : CorrState := ⟨[], 1, []⟩

/-- Scenario for C1: two synchronous requests are outstanding (ids 1 and 2,
issued from two caller threads) and the backend answers them out of order.
Neither response matches a registered callback, so both land in the shared
queue; the first blocked waiter, the one that sent request 1, then pops the
head of the queue.  `c1FirstWaiterGets` is the message that waiter receives. -/
def c1FirstWaiterGets : Option InMsg :=
  let (_, st1) := sendRequestSyncEnqueue initialCorrState
  let (_, st2) := sendRequestSyncEnqueue st1
  let (st3, _) := processLspMessage st2 (respMsg "2" "resB")
  let (st4, _) := processLspMessage st3 (respMsg "1" "resA")
  (syncWaitStep st4).1

/-- Claim C1: the code violates id-based correlation for synchronous
requests.  In the out-of-order scenario the waiter whose allocated request
id is 1 receives the response carrying id 2: the shared response queue
matches responses to waiters by arrival order, never by id. -/
theorem c1_sync_correlation_is_order_based :
    (sendRequestSyncEnqueue initialCorrState).1 = "1" ∧
    (sendRequestSyncEnqueue (sendRequestSyncEnqueue initialCorrState).2).1 = "2" ∧
    c1FirstWaiterGets = some (respMsg "2" "resB") ∧
    (respMsg "2" "resB").msgId ≠ some "1" := by
  refine ⟨rfl, rfl, rfl, by decide⟩

/-- State after the C2 scenario step 1: one synchronous request (id 1) has
been issued and no response is available, so the waiter times out. -/
def c2StAfterSend : CorrState := (sendRequestSyncEnqueue initialCorrState).2

/-- State after the C2 scenario step 2: the response to the timed-out
request 1 arrives late and is processed by the reader. -/
def c2StAfterLate : CorrState := (processLspMessage c2StAfterSend (respMsg "1" "late")).1

/-- State after the C2 scenario step 3: a later, unrelated synchronous
request (id 2) is issued. -/
def c2StAfterSecond : CorrState := (sendRequestSyncEnqueue c2StAfterLate).2

/-- Claim C2: the code violates the discard-after-timeout property.  After
request 1 times out (the queue is empty, so the waiter gets nothing and the
code returns the empty dict), the late response with id 1 is not discarded:
it is retained in the shared response queue, and the next unrelated
synchronous request (id 2) receives it as its answer. -/
theorem c2_late_response_leaks_to_next_request :
    (syncWaitStep c2StAfterSend).1 = none ∧
    c2StAfterLate.response_queue = [respMsg "1" "late"] ∧
    (sendRequestSyncEnqueue c2StAfterLate).1 = "2" ∧
    (syncWaitStep c2StAfterSecond).1 = some (respMsg "1" "late") ∧
    (respMsg "1" "late").msgId ≠ some "2" := by
  refine ⟨rfl, rfl, rfl, rfl, by decide⟩

/-- C4 scenario state: an async request with id 1 is outstanding, its
callback (tag 7) registered in the table. -/
def c4State : CorrState := ⟨[("1", 7)], 2, []⟩

/-- An error response to request 1: it has an `id` and an `error` member but
no `result` member. -/
def c4ErrMsg : InMsg := ⟨some "1", none, some "boom", none⟩

/-- Claim C4: the code violates the response classification.  An inbound
message with an `id` and an `error` member but no `result` member does not
complete the matching pending request: `_process_lsp_message` requires a
`result` key, so the message is silently dropped — the state is unchanged
(the callback for id 1 stays registered forever) and nothing is dispatched. -/
theorem c4_error_response_silently_dropped :
    processLspMessage c4State c4ErrMsg = (c4State, none) ∧
    (popCallback c4State.request_callbacks "1").1 = some 7 := by
  refine ⟨rfl, rfl⟩

/-- Python exceptions that the modelled paths can raise. -/
inductive PyErr where
  | valueError | keyError | attributeError | indexError | typeError | launchFailure
  deriving DecidableEq

/-- Result of a modelled Python call: a value or a raised exception. -/
inductive PyResult (α : Type) where
  | ok (val : α)
  | raised (e : PyErr)
  deriving DecidableEq

instance : Monad PyResult where
  pure := .ok
  bind := fun x f => match x with | .ok v => f v | .raised e => .raised e

/-- A text edit from a `textDocument/formatting` response, as read by the
edit loop of `run_formatter`: zero-indexed line/character start and end,
and the replacement text. -/
structure TextEdit where
  startLine : Nat
  startChar : Nat
  endLine : Nat
  endChar : Nat
  newText : List Char
  deriving DecidableEq

/-- Accumulator-passing worker for `splitlinesKeepends`. -/
def splitlinesGo (acc : List Char) : List Char → List (List Char)
  | [] => if acc.isEmpty then [] else [acc.reverse]
  | '\r' :: '\n' :: rest => (acc.reverse ++ ['\r', '\n']) :: splitlinesGo [] rest
  | '\n' :: rest => (acc.reverse ++ ['\n']) :: splitlinesGo [] rest
  | '\r' :: rest => (acc.reverse ++ ['\r']) :: splitlinesGo [] rest
  | c :: rest => splitlinesGo (c :: acc) rest

/-- Python `str.splitlines(True)` restricted to the text-file line
terminators carriage return, line feed and their combination: the document
split into lines, each keeping its terminator. -/
def splitlinesKeepends (cs : List Char) : List (List Char) := splitlinesGo [] cs

/-- The offset computation of the edit loop,
`sum(len(lines[i]) for i in range(k)) + ch`: Python list indexing raises
IndexError as soon as `k` exceeds the number of lines. -/
def charOffset (lines : List (List Char)) (k ch : Nat) : PyResult Nat :=
  if k ≤ lines.length then
    .ok ((lines.take k).foldl (fun a l => a + l.length) 0 + ch)
  else .raised .indexError

/-- One iteration of the edit loop in `run_formatter`: re-split the current
content into lines, convert the start and end line/character pairs to
absolute offsets, and substitute the new text for that slice (Python slices
clamp out-of-range bounds). -/
def applyOneEdit (content : List Char) (e : TextEdit) : PyResult (List Char) := do
  let lines := splitlinesKeepends content
  let s ← charOffset lines e.startLine e.startChar
  let t ← charOffset lines e.endLine e.endChar
  return content.take s ++ e.newText ++ content.drop t

/-- Insertion into a list already sorted by descending start line, placed
after every entry with an equal or larger start line: reproduces the
stability of Python `sorted`. -/
def insertDescLine : List TextEdit → TextEdit → List TextEdit
  | [], e => [e]
  | f :: fs, e =>
    if f.startLine < e.startLine then e :: f :: fs else f :: insertDescLine fs e

/-- The sort in `run_formatter`,
`sorted(result, key=lambda e: -1 * e["range"]["start"]["line"])`: a stable
descending sort on the start line alone — the start character is not part
of the key. -/
def sortEditsDescLine (es : List TextEdit) : List TextEdit := es.foldl insertDescLine []

/-- The full edit-application loop of `run_formatter`: sort by descending
start line, then apply each edit in turn to the evolving content. -/
def applyEdits (content : List Char) (es : List TextEdit) : PyResult (List Char) :=
  (sortEditsDescLine es).foldlM applyOneEdit content

/-- Edit application in exactly the given order, with no sorting: used to
express what applying in strictly-reverse-position order produces. -/
def applyEditsInOrder (content : List Char) (es : List TextEdit) : PyResult (List Char) :=
  es.foldlM applyOneEdit content

/-- First C3 counterexample edit: replace the character at line 0, column 0
with two characters. -/
def c3EditA : TextEdit := ⟨0, 0, 0, 1, ['X', 'X']⟩

/-- Second C3 counterexample edit: replace the character at line 0,
column 2 (non-overlapping with the first edit) with one character. -/
def c3EditB : TextEdit := ⟨0, 2, 0, 3, ['Y']⟩

/-- Counterexample to claim C3: the sort key is the start line only, so two
non-overlapping edits on the same line are kept in the order they were
given.  On the document abcd, applying the earlier-position edit first
shifts the second edit onto the wrong slice, and the result differs from
strictly-reverse-position application. -/
theorem c3_counterexample_same_line_edits :
    applyEdits ['a', 'b', 'c', 'd'] [c3EditA, c3EditB] =
      .ok ['X', 'X', 'Y', 'c', 'd'] ∧
    applyEditsInOrder ['a', 'b', 'c', 'd'] [c3EditB, c3EditA] =
      .ok ['X', 'X', 'b', 'Y', 'd'] ∧
    applyEdits ['a', 'b', 'c', 'd'] [c3EditA, c3EditB] ≠
      applyEditsInOrder ['a', 'b', 'c', 'd'] [c3EditB, c3EditA] := by
  refine ⟨rfl, rfl, by decide⟩

/-- Claim C3, amended: the applier sorts by descending start line only, so
order-independence holds for two edits that start on distinct lines: both
input orders produce exactly the strictly-reverse-position-order
application (the later-starting edit first). -/
theorem c3_amended_distinct_lines (t : List Char) (e1 e2 : TextEdit)
    (h : e2.startLine < e1.startLine) :
    applyEdits t [e1, e2] = applyEditsInOrder t [e1, e2] ∧
    applyEdits t [e2, e1] = applyEditsInOrder t [e1, e2] := by
  have h2 : ¬ e1.startLine < e2.startLine := Nat.not_lt.mpr (Nat.le_of_lt h)
  constructor <;>
    simp [applyEdits, applyEditsInOrder, sortEditsDescLine, insertDescLine, h, h2]

/-- Witness for the amended C3 theorem at a concrete input: a two-line
document and two edits on distinct lines, given in either order. -/
theorem c3_amended_witness :
    applyEdits ['a', '\n', 'b'] [⟨1, 0, 1, 1, ['Z']⟩, ⟨0, 0, 0, 1, ['W']⟩] =
      applyEditsInOrder ['a', '\n', 'b'] [⟨1, 0, 1, 1, ['Z']⟩, ⟨0, 0, 0, 1, ['W']⟩] ∧
    applyEdits ['a', '\n', 'b'] [⟨0, 0, 0, 1, ['W']⟩, ⟨1, 0, 1, 1, ['Z']⟩] =
      applyEditsInOrder ['a', '\n', 'b'] [⟨1, 0, 1, 1, ['Z']⟩, ⟨0, 0, 0, 1, ['W']⟩] :=
  c3_amended_distinct_lines ['a', '\n', 'b'] ⟨1, 0, 1, 1, ['Z']⟩ ⟨0, 0, 0, 1, ['W']⟩
    (by decide)

/-- One `readline()` on the byte stream: everything up to and including the
first line feed, or the whole remaining stream when no line feed is left
(empty at end of stream), paired with the rest of the stream. -/
def readLine (s : List Char) : List Char × List Char :=
  match s.findIdx? (· == '\n') with
  | some i => (s.take (i + 1), s.drop (i + 1))
  | none => (s, [])

/-- ASCII whitespace removed by `bytes.strip()` on header lines. -/
def isAsciiSpace (c : Char) : Bool :=
  c == ' ' || c == '\t' || c == '\n' || c == '\r'

/-- Python `strip()`: whitespace removed from both ends. -/
def stripChars (s : List Char) : List Char :=
  ((s.dropWhile isAsciiSpace).reverse.dropWhile isAsciiSpace).reverse

/-- The header test `line.startswith(b"Content-Length:")`. -/
def isContentLengthLine (line : List Char) : Bool :=
  "Content-Length:".toList.isPrefixOf line

/-- Decimal digits to a natural number. -/
def digitsToNat (ds : List Char) : Nat :=
  ds.foldl (fun a c => a * 10 + (c.toNat - 48)) 0

/-- The length parse `int(line.split(b":")[1])`: the segment between the
first colon and the next (whole tail for a single-colon header line), with
the surrounding whitespace tolerated by `int`. -/
def parseContentLength (line : List Char) : Nat :=
  let seg := ((line.dropWhile (· != ':')).drop 1).takeWhile (· != ':')
  digitsToNat (stripChars seg)

/-- The read loop of `BaseLanguageServerManager._lsp_reader`, producing the
list of raw message bodies.  Per iteration: read a line and strip it; an
empty line is skipped; a `Content-Length` line is followed by one
unconditional `readline()` (the blank line terminating the header) plus one
more `readline()` when the manager language is python (the hardcoded pylsp
quirk), and then exactly the announced number of body bytes.  Fuel bounds
the iterations; the top-level `lspReader` supplies the stream length, which
suffices because every iteration on a non-empty stream consumes at least
one character.  An exhausted stream ends the loop (in the source the loop
ends when the process exits). -/
def lspReaderLoop (lang : String) : Nat → List Char → List (List Char)
  | 0, _ => []
  | _ + 1, [] => []
  | fuel + 1, stream =>
    let (rawLine, rest) := readLine stream
    let line := stripChars rawLine
    if line.isEmpty then lspReaderLoop lang fuel rest
    else if isContentLengthLine line then
      let n := parseContentLength line
      let rest1 := (readLine rest).2
      let rest2 := if lang = "python" then (readLine rest1).2 else rest1
      rest2.take n :: lspReaderLoop lang fuel (rest2.drop n)
    else lspReaderLoop lang fuel rest

/-- The framing reader of the source for a backend of the given language. -/
def lspReader (lang : String) (stream : List Char) : List (List Char) :=
  lspReaderLoop lang stream.length stream

/-- Drop a given number of lines from the stream. -/
def dropLinesN : Nat → List Char → List Char
  | 0, s => s
  | k + 1, s => dropLinesN k (readLine s).2

/-- Modelled from the spec: the framing reader of section 4.1 with a
configurable per-backend count of extra blank lines to skip between the
header block and the body, defaulting to zero.  This configurability is
missing from the source, whose reader hardcodes the skip by language. -/
def lspReaderSpecLoop (skips : Nat) : Nat → List Char → List (List Char)
  | 0, _ => []
  | _ + 1, [] => []
  | fuel + 1, stream =>
    let (rawLine, rest) := readLine stream
    let line := stripChars rawLine
    if line.isEmpty then lspReaderSpecLoop skips fuel rest
    else if isContentLengthLine line then
      let n := parseContentLength line
      let rest1 := (readLine rest).2
      let rest2 := dropLinesN skips rest1
      rest2.take n :: lspReaderSpecLoop skips fuel (rest2.drop n)
    else lspReaderSpecLoop skips fuel rest

/-- Modelled from the spec: top level of the configurable-skip reader. -/
def lspReaderSpec (skips : Nat) (stream : List Char) : List (List Char) :=
  lspReaderSpecLoop skips stream.length stream

/-- A structurally well-formed frame with no extra blank line: header,
terminating blank line, then a two-byte body. -/
def c5Stream : List Char := "Content-Length: 2\r\n\r\nok".toList

/-- Counterexample to claim C5: no skip count is configurable anywhere in
the source — the skip is hardcoded by language — and for the python backend
(for which nothing was configured) the reader does not consume exactly
Content-Length bytes after the header and its terminating blank line: on a
quirk-free frame it swallows the body line as the extra blank and reads an
empty body. -/
theorem c5_counterexample_python_skip_hardcoded :
    lspReader "python" c5Stream = [[]] ∧
    lspReaderSpec 0 c5Stream = [['o', 'k']] ∧
    lspReader "python" c5Stream ≠ lspReaderSpec 0 c5Stream := by
  refine ⟨by decide, by decide, by decide⟩

/-- The source reader loop coincides with the spec-modelled loop at a skip
count fixed by language: one for python, zero otherwise. -/
theorem lspReaderLoop_eq_specLoop (lang : String) (fuel : Nat) (stream : List Char) :
    lspReaderLoop lang fuel stream =
      lspReaderSpecLoop (if lang = "python" then 1 else 0) fuel stream := by
  induction fuel generalizing stream with
  | zero => rfl
  | succ n ih =>
    cases stream with
    | nil => rfl
    | cons c cs =>
      by_cases hl : lang = "python"
      · subst hl
        simp [lspReaderLoop, lspReaderSpecLoop, dropLinesN, ih]
      · simp [lspReaderLoop, lspReaderSpecLoop, dropLinesN, hl, ih]

/-- Claim C5, amended: the count of extra blank lines skipped after the
header block is not configurable; it is hardcoded per backend language —
one extra line for python, zero for every other language.  For every
non-python backend the reader therefore consumes exactly Content-Length
body bytes after the header and its terminating blank line. -/
theorem c5_amended_skip_hardcoded_by_language (lang : String) (stream : List Char) :
    lspReader lang stream = lspReaderSpec (if lang = "python" then 1 else 0) stream :=
  lspReaderLoop_eq_specLoop lang stream.length stream

/-- Outcome of the synchronous `textDocument/formatting` request as seen by
`run_formatter`: the empty dict on timeout, or a queued response whose
result member is null or a list of edits. -/
inductive FmtResponse where
  | timeout
  | resultNull
  | resultEdits (es : List TextEdit)
  deriving DecidableEq

/-- Behaviour of the fallback formatter subprocess (black / prettier):
success with an output, a non-zero exit, or a raised exception. -/
inductive FallbackRun where
  | ok (out : List Char)
  | exitNonZero
  | raises
  deriving DecidableEq

/-- Environment of one `run_formatter` call: whether the file exists,
whether the backend process is running, whether `start()` would succeed if
invoked, the file content, the formatting-request outcome, and the fallback
behaviour. -/
structure FmtWorld where
  fileExists : Bool
  running : Bool
  launchOk : Bool
  content : List Char
  lspResponse : FmtResponse
  fallback : FallbackRun

/-- The protocol-path portion of `run_formatter`: the request, the
`if response and "result" in response` / `if result` checks, and the edit
loop, all inside the try block.  `none` when the path yields no new content
— a timeout (empty dict is falsy), a null or empty result (falsy), or an
exception in the edit loop, which the except clause catches before falling
through to the fallback. -/
def lspFormatOutcome (w : FmtWorld) : Option (List Char) :=
  match w.lspResponse with
  | .timeout => none
  | .resultNull => none
  | .resultEdits es =>
    if es.isEmpty then none
    else
      match applyEdits w.content es with
      | .ok c => some c
      | .raised _ => none

/-- `run_formatter` of the Python manager (the JavaScript manager is
line-for-line identical here): ValueError for a missing file; ensure
running, where a failed `start()` re-raises the launch exception; then the
protocol path; then the fallback subprocess, whose non-zero exit or raised
exception degrades to returning the original content. -/
def run_formatter (w : FmtWorld) : PyResult (List Char) :=
  if !w.fileExists then .raised .valueError
  else if !w.running && !w.launchOk then .raised .launchFailure
  else
    match lspFormatOutcome w with
    | some c => .ok c
    | none =>
      match w.fallback with
      | .ok out => .ok out
      | .exitNonZero => .ok w.content
      | .raises => .ok w.content

/-- A resolved code location: a path (converted from the response URI) and
an opaque range payload. -/
structure Loc where
  path : String
  range : String
  deriving DecidableEq

/-- The result member of a definition/references response as inspected by
the base-class handlers: timeout (empty dict, so the member is absent),
null, an array of locations, or a single location object. -/
inductive DefResponse where
  | timeout
  | resultNull
  | resultList (ls : List Loc)
  | resultSingle (l : Loc)
  deriving DecidableEq

/-- Environment of one navigation call: process state, launchability and
the response the correlation layer hands back. -/
structure DefWorld where
  running : Bool
  launchOk : Bool
  response : DefResponse

/-- `BaseLanguageServerManager._uri_to_path`: strip a file scheme. -/
def uriToPath (u : String) : String :=
  if "file://".toList.isPrefixOf u.toList then ⟨u.toList.drop 7⟩ else u

/-- `BaseLanguageServerManager.get_definition` (the version the JavaScript
manager inherits): ensure running, issue the request, then convert the
result by shape — list, single object, or anything else giving the empty
location list.  No file-existence check is made here. -/
def getDefinitionBase (w : DefWorld) : PyResult (List Loc) :=
  if !w.running && !w.launchOk then .raised .launchFailure
  else
    match w.response with
    | .timeout => .ok []
    | .resultNull => .ok []
    | .resultList ls => .ok (ls.map fun l => ⟨uriToPath l.path, l.range⟩)
    | .resultSingle l => .ok [⟨uriToPath l.path, l.range⟩]

/-- `BaseLanguageServerManager.get_references`: ensure running, issue the
request, iterate the result member (defaulting to the empty list when the
member is absent, as after a timeout).  Iterating a null result would raise
TypeError in Python; a list result is converted element-wise. -/
def getReferencesBase (w : DefWorld) : PyResult (List Loc) :=
  if !w.running && !w.launchOk then .raised .launchFailure
  else
    match w.response with
    | .timeout => .ok []
    | .resultNull => .raised .typeError
    | .resultList ls => .ok (ls.map fun l => ⟨uriToPath l.path, l.range⟩)
    | .resultSingle _ => .raised .typeError

/-- World for the C6 counterexample: the file exists, the backend is not
running, and launching it fails (for example the server executable is not
installed). -/
def c6World : FmtWorld := ⟨true, false, false, ['x'], .timeout, .ok ['y']⟩

/-- Counterexample to claim C6: with an existing file, a backend that fails
to launch — ordinary backend unavailability — makes `run_formatter` raise:
`start()` re-raises the launch exception and no operation catches it, so
the failure is not surfaced as a result value. -/
theorem c6_counterexample_launch_failure_raises :
    run_formatter c6World = .raised .launchFailure ∧
    getDefinitionBase ⟨false, false, .timeout⟩ = .raised .launchFailure := by
  refine ⟨rfl, rfl⟩

/-- Claim C6, amended: provided the backend process is already running or
launches successfully, backend unresponsiveness is surfaced only as a
result value — `run_formatter` always returns some text without raising,
whatever the protocol path and fallback do, and the base-class
`get_definition` and `get_references` return the empty location list on a
request timeout.  A backend that fails to launch, however, propagates the
launch exception out of the operation. -/
theorem c6_amended_no_raise_after_successful_launch :
    (∀ w : FmtWorld, w.fileExists = true → (w.running = true ∨ w.launchOk = true) →
      ∃ out, run_formatter w = .ok out) ∧
    (∀ w : DefWorld, (w.running = true ∨ w.launchOk = true) → w.response = .timeout →
      getDefinitionBase w = .ok [] ∧ getReferencesBase w = .ok []) := by
  constructor
  · intro w hf hr
    unfold run_formatter
    have hcond : (!w.running && !w.launchOk) = false := by
      rcases hr with hr | hr <;> simp [hr]
    rw [hf]
    simp only [Bool.not_true, Bool.false_eq_true, if_false, hcond]
    cases lspFormatOutcome w with
    | some c => exact ⟨c, rfl⟩
    | none =>
      cases hb : w.fallback with
      | ok out => exact ⟨out, by simp [hb]⟩
      | exitNonZero => exact ⟨w.content, by simp [hb]⟩
      | raises => exact ⟨w.content, by simp [hb]⟩
  · intro w hr hresp
    have hcond : (!w.running && !w.launchOk) = false := by
      rcases hr with hr | hr <;> simp [hr]
    constructor <;> simp [getDefinitionBase, getReferencesBase, hcond, hresp]

/-- World for the C6 witness: running backend, unresponsive protocol path,
fallback raising. -/
def c6OkWorld : FmtWorld := ⟨true, true, false, ['a'], .timeout, .raises⟩

/-- Witness for the amended C6 theorem at a concrete unresponsive world. -/
theorem c6_amended_witness : ∃ out, run_formatter c6OkWorld = .ok out :=
  c6_amended_no_raise_after_successful_launch.1 c6OkWorld rfl (Or.inl rfl)

/-- Claim C7: when the protocol path produces no new content and the
fallback formatter exits non-zero or raises, `run_formatter` returns the
original file content unchanged, for every existing file on a backend that
is running or launches successfully. -/
theorem c7_double_failure_returns_original (w : FmtWorld)
    (hf : w.fileExists = true) (hr : w.running = true ∨ w.launchOk = true)
    (hl : lspFormatOutcome w = none)
    (hb : w.fallback = .exitNonZero ∨ w.fallback = .raises) :
    run_formatter w = .ok w.content := by
  have hcond : (!w.running && !w.launchOk) = false := by
    rcases hr with hr | hr <;> simp [hr]
  rcases hb with hb | hb <;> simp [run_formatter, hf, hcond, hl, hb]

/-- World for the C7 witness: existing file, running backend, formatting
request timing out, fallback exiting non-zero. -/
def c7World : FmtWorld := ⟨true, true, true, ['x'], .timeout, .exitNonZero⟩

/-- Witness for the C7 theorem at a concrete double-failure world. -/
theorem c7_witness : run_formatter c7World = .ok ['x'] :=
  c7_double_failure_returns_original c7World rfl (Or.inl rfl) rfl (Or.inl rfl)

/-- The four logging levels used by `_handle_notification`. -/
inductive LogLevel where
  | error | warning | info | debug
  deriving DecidableEq

/-- The severity mapping of `_handle_notification`:
`message_type = params.get("type", 4)` — an absent severity defaults to 4 —
followed by a lookup in the level dict with default INFO. -/
def logLevelFor (severity : Option Int) : LogLevel :=
  let t := severity.getD 4
  if t = 1 then .error
  else if t = 2 then .warning
  else if t = 3 then .info
  else if t = 4 then .debug
  else .info

/-- A notification as inspected by `_handle_notification`: the method name,
the optional severity in the params, and the text payload. -/
structure NotifMsg where
  method : String
  severity : Option Int
  text : String

/-- `BaseLanguageServerManager._handle_notification`: only a
`window/logMessage` notification produces a log action, at the level given
by the severity mapping. -/
def handleNotification (n : NotifMsg) : Option (LogLevel × String) :=
  if n.method = "window/logMessage" then some (logLevelFor n.severity, n.text) else none

/-- Counterexample to claim C8: a `window/logMessage` notification with no
severity field is logged at debug, not at info — the absent field defaults
to 4 before the level lookup. -/
theorem c8_counterexample_absent_severity_is_debug :
    handleNotification ⟨"window/logMessage", none, "hi"⟩ = some (.debug, "hi") ∧
    LogLevel.debug ≠ LogLevel.info := by
  refine ⟨rfl, by decide⟩

/-- Claim C8, amended: severities 1, 2, 3, 4 are logged at error, warning,
info and debug; a present severity outside 1 to 4 is logged at info; an
absent severity field, however, defaults to 4 and is logged at debug. -/
theorem c8_amended_severity_mapping :
    (∀ txt : String,
      handleNotification ⟨"window/logMessage", some 1, txt⟩ = some (.error, txt) ∧
      handleNotification ⟨"window/logMessage", some 2, txt⟩ = some (.warning, txt) ∧
      handleNotification ⟨"window/logMessage", some 3, txt⟩ = some (.info, txt) ∧
      handleNotification ⟨"window/logMessage", some 4, txt⟩ = some (.debug, txt)) ∧
    (∀ (t : Int) (txt : String), t ≠ 1 → t ≠ 2 → t ≠ 3 → t ≠ 4 →
      handleNotification ⟨"window/logMessage", some t, txt⟩ = some (.info, txt)) ∧
    (∀ txt : String,
      handleNotification ⟨"window/logMessage", none, txt⟩ = some (.debug, txt)) := by
  refine ⟨?_, ?_, ?_⟩
  · intro txt
    refine ⟨?_, ?_, ?_, ?_⟩ <;> simp [handleNotification, logLevelFor]
  · intro t txt h1 h2 h3 h4
    simp [handleNotification, logLevelFor, h1, h2, h3, h4]
  · intro txt
    simp [handleNotification, logLevelFor]

/-- Witness for the amended C8 theorem: an unrecognized present severity is
logged at info. -/
theorem c8_amended_witness :
    handleNotification ⟨"window/logMessage", some 7, "x"⟩ = some (.info, "x") :=
  c8_amended_severity_mapping.2.1 7 "x" (by decide) (by decide) (by decide) (by decide)

/-- The method names defined on `PythonLanguageServerManager` itself, as
written in python_server.py. -/
def pythonManagerMethods : List String :=
  ["language", "start", "stop", "is_running", "_configure_server",
   "run_linter", "run_formatter", "get_definition", "get_references"]

/-- The method names defined on `BaseLanguageServerManager`, as written in
base.py. -/
def baseManagerMethods : List String :=
  ["language", "start", "stop", "is_running", "run_linter", "run_formatter",
   "_start_lsp_communication", "_stop_lsp_communication", "_lsp_reader",
   "_lsp_writer", "_process_lsp_message", "_handle_notification",
   "_initialize_lsp_server", "_send_shutdown_request", "_send_request_sync",
   "_send_request_async", "_send_notification", "_uri_to_path",
   "_path_to_uri", "get_definition", "get_references"]

/-- Python attribute resolution for a method on a
`PythonLanguageServerManager` instance: the class, then its base class. -/
def pythonManagerResolves (name : String) : Bool :=
  pythonManagerMethods.contains name || baseManagerMethods.contains name

/-- `PythonLanguageServerManager.get_definition`: ensure running, then call
`self._send_lsp_request(...)`.  That attribute resolves nowhere in the
hierarchy, so the lookup raises AttributeError before any request is sent;
the ok branch modelling the rest of the method is unreachable. -/
def pyGetDefinition (w : DefWorld) : PyResult (List Loc) :=
  if !w.running && !w.launchOk then .raised .launchFailure
  else if pythonManagerResolves "_send_lsp_request" then .ok []
  else .raised .attributeError

/-- `PythonLanguageServerManager.get_references`: same structure and same
undefined `self._send_lsp_request(...)` call as `pyGetDefinition`. -/
def pyGetReferences (w : DefWorld) : PyResult (List Loc) :=
  if !w.running && !w.launchOk then .raised .launchFailure
  else if pythonManagerResolves "_send_lsp_request" then .ok []
  else .raised .attributeError

/-- Claim C9: while the Python backend process is running, every
`get_definition` or `get_references` call on the Python manager raises
AttributeError — the method `_send_lsp_request` both overrides invoke is
defined nowhere in the class hierarchy — so these operations can never
return location results. -/
theorem c9_python_nav_raises_attribute_error (w : DefWorld) (h : w.running = true) :
    pythonManagerResolves "_send_lsp_request" = false ∧
    pyGetDefinition w = .raised .attributeError ∧
    pyGetReferences w = .raised .attributeError := by
  have hres : pythonManagerResolves "_send_lsp_request" = false := by decide
  refine ⟨hres, ?_, ?_⟩ <;> simp [pyGetDefinition, pyGetReferences, h, hres]

/-- Witness for the C9 theorem: a running Python backend. -/
theorem c9_witness :
    pythonManagerResolves "_send_lsp_request" = false ∧
    pyGetDefinition ⟨true, false, .timeout⟩ = .raised .attributeError ∧
    pyGetReferences ⟨true, false, .timeout⟩ = .raised .attributeError :=
  c9_python_nav_raises_attribute_error ⟨true, false, .timeout⟩ rfl

/-- The manager table built by `MultiLanguageServer.__init__`: python and
javascript only — the java entry is commented out in the source.  Managers
are represented by their class names. -/
def serverManagers : List (String × String) :=
  [("python", "PythonLanguageServerManager"),
   ("javascript", "JavaScriptLanguageServerManager")]

/-- Python dict bracket indexing: KeyError when the key is absent. -/
def dictIndex (m : List (String × String)) (k : String) : PyResult String :=
  match m.lookup k with
  | some v => .ok v
  | none => .raised .keyError

/-- The extension produced by `os.path.splitext(file_path)[1].lower()`:
the last dot suffix of the basename, with leading dots of the basename
never starting an extension, lower-cased; empty when there is none. -/
def fileExtension (path : String) : String :=
  let base := (path.splitOn "/").getLastD ""
  let cs := base.toList
  let lead := (cs.takeWhile (· == '.')).length
  let rest := cs.drop lead
  let extLen := (rest.reverse.takeWhile (· != '.')).length
  if extLen < rest.length then ⟨(cs.drop (cs.length - extLen - 1)).map Char.toLower⟩
  else ""

/-- `MultiLanguageServer.get_server_for_file`: compute the extension, then
build the extension table, indexing `server_managers` for python,
javascript and java (each value of the dict display is evaluated before
`.get` runs; the repeated javascript lookups are shared here, which changes
nothing observable since they succeed). -/
def get_server_for_file (path : String) : PyResult (Option String) := do
  let ext := fileExtension path
  let py ← dictIndex serverManagers "python"
  let js ← dictIndex serverManagers "javascript"
  let jv ← dictIndex serverManagers "java"
  let table := [(".py", py), (".js", js), (".ts", js), (".jsx", js), (".tsx", js),
                (".java", jv)]
  return table.lookup ext

/-- `MultiLanguageServer.run_linter`: select the server, raise ValueError
when none matches, otherwise dispatch (the dispatch is represented by the
selected manager name). -/
def service_run_linter (path : String) : PyResult String := do
  match ← get_server_for_file path with
  | none => PyResult.raised .valueError
  | some m => PyResult.ok m

/-- `MultiLanguageServer.run_formatter`: same selection logic. -/
def service_run_formatter (path : String) : PyResult String := do
  match ← get_server_for_file path with
  | none => PyResult.raised .valueError
  | some m => PyResult.ok m

/-- `MultiLanguageServer.get_definition`: same selection logic. -/
def service_get_definition (path : String) : PyResult String := do
  match ← get_server_for_file path with
  | none => PyResult.raised .valueError
  | some m => PyResult.ok m

/-- `MultiLanguageServer.get_references`: same selection logic. -/
def service_get_references (path : String) : PyResult String := do
  match ← get_server_for_file path with
  | none => PyResult.raised .valueError
  | some m => PyResult.ok m

/-- Claim C10: for every input path — whatever its extension — the eager
`server_managers["java"]` lookup inside the extension table raises
KeyError, because no java manager is ever constructed; consequently every
service-level operation raises KeyError instead of returning a result or
the documented ValueError. -/
theorem c10_every_service_operation_key_error (path : String) :
    get_server_for_file path = .raised .keyError ∧
    service_run_linter path = .raised .keyError ∧
    service_run_formatter path = .raised .keyError ∧
    service_get_definition path = .raised .keyError ∧
    service_get_references path = .raised .keyError :=
  ⟨rfl, rfl, rfl, rfl, rfl⟩

end MultiLsp
